import Mathlib

/-!
Verification of the MoMo-More trust-score engine
(`backend/app/libs/trust_score_engine.py`) and of the simplified endpoint
engine (`backend/app/apis/trustscore_simple/__init__.py`).

Modelling conventions:
* Python floats are modelled as `ℚ`; Python `round(x, k)` is modelled as
  rounding `10^k * x` to the nearest integer (the tie-breaking mode is
  immaterial to every statement below).
* A Python dict section is modelled as a structure whose fields are
  `Option`-valued; `dict.get(key, default)` becomes `field.getD default`.
* The wall-clock reads `datetime.now()` / `datetime.utcnow()` are made
  explicit parameters (`today`, measured in days, for the age computation;
  `nowUtc`, in seconds, for the offer validity stamps), since that is the
  only way to express clock-dependent code as pure functions.
* `customer_since` is a date string in the source; what the code consumes
  from it is either "key absent", "present but unparsable" (the `except`
  branch) or the parsed date, modelled by `DateParse`.
-/

/-- Python `round(x, 1)` : round to one decimal place. -/
def round1 (x : ℚ) : ℚ := (round (10 * x) : ℚ) / 10

/-- Python `round(x, 2)` : round to two decimal places. -/
def round2 (x : ℚ) : ℚ := (round (100 * x) : ℚ) / 100

/-- Outcome of parsing the `customer_since` date string. -/
inductive DateParse where
  | ok (day : ℤ)
  | err
deriving DecidableEq

/-- The `account_info` section. `identity_verification_score` stands for the
nested lookup `account_data.get("risk_indicators", {}).get("identity_verification_score", ...)`:
`none` means the nested key is absent (either level). -/
structure AccountInfo where
  account_status : Option String
  kyc_status : Option String
  customer_since : Option DateParse
  identity_verification_score : Option ℚ
deriving DecidableEq

def AccountInfo.empty : AccountInfo := ⟨none, none, none, none⟩

/-- One entry of `transaction_history`; only its `"type"` key is consumed. -/
structure Transaction where
  type : Option String
deriving DecidableEq

/-- The `payment_patterns` section. -/
structure PaymentPatterns where
  monthly_transaction_count : Option ℚ
  success_rate : Option ℚ
  transaction_history : List Transaction
  average_transaction_amount : Option ℚ
  bill_payment_frequency : Option String
  regular_recipients : Option ℚ
deriving DecidableEq

def PaymentPatterns.empty : PaymentPatterns := ⟨none, none, [], none, none, none⟩

/-- The `balance_info` section. -/
structure BalanceInfo where
  current_balance : Option ℚ
  average_monthly_balance : Option ℚ
deriving DecidableEq

def BalanceInfo.empty : BalanceInfo := ⟨none, none⟩

/-- The `behavioral_data` section. -/
structure BehavioralData where
  app_usage_days_per_month : Option ℚ
  balance_check_frequency : Option String
  location_consistency : Option ℚ
deriving DecidableEq

def BehavioralData.empty : BehavioralData := ⟨none, none, none⟩

/-- The `risk_indicators` section. -/
structure RiskIndicators where
  failed_transaction_rate : Option ℚ
  dispute_count_6months : Option ℚ
  suspicious_activity_flags : Option (List String)
deriving DecidableEq

def RiskIndicators.empty : RiskIndicators := ⟨none, none, none⟩

/-- The whole `mtn_data` dict handed to `calculate_trust_score`. -/
structure MtnData where
  account_info : Option AccountInfo
  balance_info : Option BalanceInfo
  payment_patterns : Option PaymentPatterns
  behavioral_data : Option BehavioralData
  risk_indicators : Option RiskIndicators
deriving DecidableEq

/-- The class-level `WEIGHTS` dict of `TrustScoreEngine`. -/
structure WeightTable where
  account_health : ℚ
  transaction_patterns : ℚ
  financial_behavior : ℚ
  engagement_loyalty : ℚ
  risk_factors : ℚ
deriving DecidableEq

/-- `TrustScoreEngine.WEIGHTS` : weight factors for the data categories. -/
def WEIGHTS : WeightTable := ⟨0.25, 0.30, 0.25, 0.15, 0.05⟩

/-- Sum of the five entries of a weight table. -/
def weightTableSum (w : WeightTable) : ℚ :=
  w.account_health + w.transaction_patterns + w.financial_behavior +
    w.engagement_loyalty + w.risk_factors

/-- `TrustScoreEngine.calculate_account_health_score`.
`today` is the day number of `datetime.now()`; `days_active` is the day
difference computed by the source. -/
def calculate_account_health_score (today : ℤ) (account_data : AccountInfo) :
    ℚ × List String :=
  let afterStatus : ℚ × List String :=
    if account_data.account_status = some "ACTIVE" then
      (30, ["Active account status"])
    else (0, [])
  let afterKyc : ℚ × List String :=
    if account_data.kyc_status = some "VERIFIED" then
      (afterStatus.1 + 25, afterStatus.2 ++ ["KYC verified"])
    else afterStatus
  let afterAge : ℚ × List String :=
    match account_data.customer_since with
    | none => afterKyc
    | some DateParse.err =>
        (afterKyc.1 + 10, afterKyc.2 ++ ["Account age available"])
    | some (DateParse.ok day) =>
        let days_active : ℤ := today - day
        let age_score : ℚ :=
          if days_active ≥ 730 then 25
          else if days_active ≥ 365 then 20
          else if days_active ≥ 180 then 15
          else if days_active ≥ 90 then 10
          else 5
        (afterKyc.1 + age_score,
         afterKyc.2 ++ ["Account age: " ++ toString days_active ++ " days"])
  let identity_score := account_data.identity_verification_score.getD 90
  (min (afterAge.1 + (identity_score / 100) * 20) 100,
   afterAge.2 ++ ["Identity verification: " ++ toString identity_score ++ "%"])

/-- `TrustScoreEngine.calculate_transaction_patterns_score`. -/
def calculate_transaction_patterns_score (payment_data : PaymentPatterns) :
    ℚ × List String :=
  let monthly_count := payment_data.monthly_transaction_count.getD 0
  let freq_score : ℚ :=
    if monthly_count ≥ 40 then 25
    else if monthly_count ≥ 20 then 20
    else if monthly_count ≥ 10 then 15
    else if monthly_count ≥ 5 then 10
    else 5
  let success_rate := payment_data.success_rate.getD 95
  let success_score : ℚ :=
    if success_rate ≥ 98 then 35
    else if success_rate ≥ 95 then 30
    else if success_rate ≥ 90 then 25
    else if success_rate ≥ 85 then 20
    else 10
  let transaction_types :=
    (payment_data.transaction_history.map (fun tx => tx.type.getD "UNKNOWN")).dedup
  let variety_score : ℚ := min ((transaction_types.length : ℚ) * 5) 20
  let avg_amount := payment_data.average_transaction_amount.getD 0
  let amount_score : ℚ :=
    if avg_amount ≥ 500 then 20
    else if avg_amount ≥ 200 then 15
    else if avg_amount ≥ 100 then 10
    else 5
  (min (freq_score + success_score + variety_score + amount_score) 100,
   ["Monthly transactions: " ++ toString monthly_count,
    "Transaction success rate: " ++ toString success_rate ++ "%",
    "Transaction types: " ++ toString transaction_types.length,
    "Average transaction: R" ++ toString avg_amount])

/-- `TrustScoreEngine.calculate_financial_behavior_score`. -/
def calculate_financial_behavior_score (balance_data : BalanceInfo)
    (payment_data : PaymentPatterns) : ℚ × List String :=
  let current_balance := balance_data.current_balance.getD 0
  let balance_score : ℚ :=
    if current_balance ≥ 5000 then 30
    else if current_balance ≥ 2000 then 25
    else if current_balance ≥ 1000 then 20
    else if current_balance ≥ 500 then 15
    else if current_balance ≥ 100 then 10
    else 5
  let avg_monthly := balance_data.average_monthly_balance.getD 0
  let avg_score : ℚ :=
    if avg_monthly ≥ 3000 then 25
    else if avg_monthly ≥ 1500 then 20
    else if avg_monthly ≥ 800 then 15
    else if avg_monthly ≥ 400 then 10
    else 5
  let bill_frequency := payment_data.bill_payment_frequency.getD "NEVER"
  let bill_score : ℚ :=
    if bill_frequency = "MONTHLY" then 25
    else if bill_frequency = "WEEKLY" then 20
    else if bill_frequency = "QUARTERLY" then 15
    else 5
  let regular_recipients := payment_data.regular_recipients.getD 0
  let recipient_score : ℚ := min (regular_recipients * 5) 20
  (min (balance_score + avg_score + bill_score + recipient_score) 100,
   ["Current balance: R" ++ toString current_balance,
    "Average monthly balance: R" ++ toString avg_monthly,
    "Bill payment frequency: " ++ bill_frequency,
    "Regular recipients: " ++ toString regular_recipients])

/-- `TrustScoreEngine.calculate_engagement_score`. -/
def calculate_engagement_score (behavioral_data : BehavioralData) :
    ℚ × List String :=
  let usage_days := behavioral_data.app_usage_days_per_month.getD 0
  let usage_score : ℚ :=
    if usage_days ≥ 25 then 40
    else if usage_days ≥ 20 then 35
    else if usage_days ≥ 15 then 30
    else if usage_days ≥ 10 then 20
    else 10
  let check_freq := behavioral_data.balance_check_frequency.getD "NEVER"
  let check_score : ℚ :=
    if check_freq = "DAILY" then 30
    else if check_freq = "WEEKLY" then 25
    else if check_freq = "MONTHLY" then 15
    else 5
  let location_consistency := behavioral_data.location_consistency.getD 50
  let location_score : ℚ := (location_consistency / 100) * 30
  (min (usage_score + check_score + location_score) 100,
   ["App usage: " ++ toString usage_days ++ " days/month",
    "Balance checks: " ++ check_freq,
    "Location consistency: " ++ toString location_consistency ++ "%"])

/-- `TrustScoreEngine.calculate_risk_deduction`. -/
def calculate_risk_deduction (risk_data : RiskIndicators) : ℚ × List String :=
  let failed_rate := risk_data.failed_transaction_rate.getD 0
  let failed_deduction : ℚ :=
    if failed_rate > 5 then 30
    else if failed_rate > 2 then 15
    else 0
  let failed_factors : List String :=
    if failed_rate > 5 then ["High failure rate: " ++ toString failed_rate ++ "%"]
    else if failed_rate > 2 then ["Moderate failure rate: " ++ toString failed_rate ++ "%"]
    else []
  let disputes := risk_data.dispute_count_6months.getD 0
  let dispute_deduction : ℚ :=
    if disputes > 2 then 25
    else if disputes > 0 then 10
    else 0
  let dispute_factors : List String :=
    if disputes > 2 then ["Multiple disputes: " ++ toString disputes]
    else if disputes > 0 then ["Some disputes: " ++ toString disputes]
    else []
  let flags := risk_data.suspicious_activity_flags.getD []
  let flag_deduction : ℚ :=
    if flags.length > 0 then (flags.length : ℚ) * 15 else 0
  let flag_factors : List String :=
    if flags.length > 0 then ["Suspicious activities: " ++ toString flags.length]
    else []
  let collected := failed_factors ++ dispute_factors ++ flag_factors
  let risk_factors :=
    if collected = [] then ["No significant risk factors"] else collected
  (min (failed_deduction + dispute_deduction + flag_deduction) 100, risk_factors)

/-- The result dict of `TrustScoreEngine.calculate_trust_score`
(`score_components` and `transparency_details` flattened into fields). -/
structure TrustScoreResult where
  final_score : ℚ
  account_health : ℚ
  transaction_patterns : ℚ
  financial_behavior : ℚ
  engagement_loyalty : ℚ
  risk_deduction : ℚ
  account_factors : List String
  transaction_factors : List String
  financial_factors : List String
  engagement_factors : List String
  risk_factors : List String
  calculation_weights : WeightTable
deriving DecidableEq

/-- `TrustScoreEngine.calculate_trust_score`. -/
def calculate_trust_score (today : ℤ) (mtn_data : MtnData) : TrustScoreResult :=
  let account_info := mtn_data.account_info.getD AccountInfo.empty
  let balance_info := mtn_data.balance_info.getD BalanceInfo.empty
  let payment_patterns := mtn_data.payment_patterns.getD PaymentPatterns.empty
  let behavioral_data := mtn_data.behavioral_data.getD BehavioralData.empty
  let risk_indicators := mtn_data.risk_indicators.getD RiskIndicators.empty
  let account := calculate_account_health_score today account_info
  let transaction := calculate_transaction_patterns_score payment_patterns
  let financial := calculate_financial_behavior_score balance_info payment_patterns
  let engagement := calculate_engagement_score behavioral_data
  let risk := calculate_risk_deduction risk_indicators
  let overall_score :=
    account.1 * WEIGHTS.account_health +
    transaction.1 * WEIGHTS.transaction_patterns +
    financial.1 * WEIGHTS.financial_behavior +
    engagement.1 * WEIGHTS.engagement_loyalty
  let risk_adjusted_score := overall_score - risk.1 * WEIGHTS.risk_factors
  let final_score := max (min risk_adjusted_score 100) 0
  ⟨round1 final_score,
   round1 account.1, round1 transaction.1, round1 financial.1,
   round1 engagement.1, round1 risk.1,
   account.2, transaction.2, financial.2, engagement.2, risk.2,
   WEIGHTS⟩

/-- One entry of the `loan_options` list built by `generate_loan_offer`. -/
structure LoanOption where
  amount : ℚ
  interest_rate_percent : ℚ
  total_interest : ℚ
  processing_fee : ℚ
  total_repayment : ℚ
  term_days : ℕ
  daily_repayment : ℚ
deriving DecidableEq

/-- Result of `TrustScoreEngine.generate_loan_offer`: either the rejection
dict (reason and `minimum_score_required`) or the approved offer bundle
(the fixed `terms_and_conditions` dict is a constant and is omitted;
the two ISO timestamps are modelled as the underlying epoch seconds). -/
inductive LoanOfferResult where
  | rejected (reason : String) (minimum_score_required : ℕ)
  | approved (trust_score : ℚ) (credit_tier : String)
      (loan_options : List LoanOption)
      (offer_valid_until : ℤ) (next_eligibility_check : ℤ)
deriving DecidableEq

/-- The loan options of a bundle (a rejection dict carries none). -/
def LoanOfferResult.optionsList : LoanOfferResult → List LoanOption
  | .rejected _ _ => []
  | .approved _ _ opts _ _ => opts

/-- The `approved` flag of a bundle. -/
def LoanOfferResult.approvedFlag : LoanOfferResult → Bool
  | .rejected _ _ => false
  | .approved _ _ _ _ _ => true

/-- The `credit_tier` of a bundle, when approved. -/
def LoanOfferResult.tierName : LoanOfferResult → Option String
  | .rejected _ _ => none
  | .approved _ tier _ _ _ => some tier

/-- The tier ladder at the top of `generate_loan_offer`:
`(tier, max_amount, interest_rate, max_term_days)`, `none` below 40. -/
def tierOf (trust_score : ℚ) : Option (String × ℚ × ℚ × ℕ) :=
  if trust_score ≥ 85 then some ("EXCELLENT", 15000, 2.5, 180)
  else if trust_score ≥ 70 then some ("GOOD", 10000, 3.5, 120)
  else if trust_score ≥ 55 then some ("FAIR", 5000, 5.0, 90)
  else if trust_score ≥ 40 then some ("POOR", 2000, 7.5, 60)
  else none

/-- The `final_max_amount` computation of `generate_loan_offer`
(balance-based limit, fallback when the limit is not positive, 500 floor). -/
def affordCap (max_amount : ℚ) (balance_info : BalanceInfo) : ℚ :=
  let current_balance := balance_info.current_balance.getD 0
  let avg_balance := balance_info.average_monthly_balance.getD 0
  let balance_based_limit := min (avg_balance * 2) (current_balance * 5)
  let final_max_amount :=
    if balance_based_limit > 0 then min max_amount balance_based_limit
    else max_amount
  if final_max_amount < 500 then 500 else final_max_amount

/-- The fixed principal fractions of the offer loop (the source writes the
last one as `1.0`). -/
def loanFractions : List ℚ := [0.25, 0.5, 0.75, 1]

/-- The `loan_options` loop of `generate_loan_offer`. -/
def mkLoanOptions (final_max_amount interest_rate processing_fee : ℚ)
    (max_term_days : ℕ) : List LoanOption :=
  loanFractions.filterMap (fun percentage =>
    let amount := final_max_amount * percentage
    if amount ≥ 500 then
      let total_interest := amount * (interest_rate / 100)
      let total_repayment := amount + total_interest + processing_fee
      some ⟨round2 amount, interest_rate, round2 total_interest,
            round2 processing_fee, round2 total_repayment, max_term_days,
            round2 (total_repayment / (max_term_days : ℚ))⟩
    else none)

/-- `TrustScoreEngine.generate_loan_offer`. `nowUtc` is the epoch second of
`datetime.utcnow()`. -/
def generate_loan_offer (trust_score : ℚ) (balance_info : BalanceInfo)
    (nowUtc : ℤ) : LoanOfferResult :=
  match tierOf trust_score with
  | none =>
      .rejected "TrustScore below minimum threshold for loan approval" 40
  | some (tier, max_amount, interest_rate, max_term_days) =>
      let final_max_amount := affordCap max_amount balance_info
      let processing_fee := max (final_max_amount * 0.02) 25
      .approved trust_score tier
        (mkLoanOptions final_max_amount interest_rate processing_fee max_term_days)
        (nowUtc + 24 * 3600) (nowUtc + 7 * 86400)

/-- The flat dataset consumed by the simplified endpoint engine
(`trustscore_simple`); its fields are accessed directly (no defaults). -/
structure SimpleMtnData where
  account_age_days : ℤ
  kyc_verified : Bool
  current_balance : ℚ
  avg_monthly_balance : ℚ
  monthly_transactions : ℤ
  success_rate : ℚ
  bill_payments_monthly : ℤ
  app_usage_days_month : ℤ
  failed_transactions_rate : ℚ
  disputes_6months : ℤ
  location_consistency : ℚ
deriving DecidableEq

/-- `simulate_mtn_data_analysis` from `trustscore_simple` (the msisdn
argument is ignored by the source). -/
def simulate_mtn_data_analysis (_msisdn : String) : SimpleMtnData :=
  ⟨850, true, 4200.50, 3100.00, 42, 98.5, 3, 26, 1.5, 0, 94.2⟩

/-- `calculate_trust_score_engine` from `trustscore_simple`. -/
def calculate_trust_score_engine (mtn_data : SimpleMtnData) : ℚ × List String :=
  let s1 : ℚ × List String :=
    if mtn_data.kyc_verified then (25, ["KYC verified"]) else (0, [])
  let s2 : ℚ × List String :=
    if mtn_data.account_age_days > 730 then
      (s1.1 + 20, s1.2 ++ ["Account 2+ years old"])
    else if mtn_data.account_age_days > 365 then
      (s1.1 + 15, s1.2 ++ ["Account 1+ year old"])
    else s1
  let s3 : ℚ × List String :=
    if mtn_data.current_balance > 3000 then
      (s2.1 + 15, s2.2 ++ ["Strong current balance"])
    else if mtn_data.current_balance > 1000 then
      (s2.1 + 10, s2.2 ++ ["Good current balance"])
    else s2
  let s4 : ℚ × List String :=
    if mtn_data.avg_monthly_balance > 2000 then
      (s3.1 + 15, s3.2 ++ ["Consistent balance management"])
    else if mtn_data.avg_monthly_balance > 800 then
      (s3.1 + 10, s3.2 ++ ["Reasonable balance management"])
    else s3
  let s5 : ℚ × List String :=
    if mtn_data.monthly_transactions > 30 then
      (s4.1 + 15, s4.2 ++ ["High transaction activity"])
    else if mtn_data.monthly_transactions > 15 then
      (s4.1 + 10, s4.2 ++ ["Regular transaction activity"])
    else s4
  let s6 : ℚ × List String :=
    if mtn_data.success_rate > 97 then
      (s5.1 + 10, s5.2 ++ ["Excellent transaction success rate"])
    else if mtn_data.success_rate > 95 then
      (s5.1 + 8, s5.2 ++ ["Good transaction success rate"])
    else s5
  let s7 : ℚ × List String :=
    if mtn_data.app_usage_days_month > 20 then
      (s6.1 + 8, s6.2 ++ ["Very active app usage"])
    else if mtn_data.app_usage_days_month > 10 then
      (s6.1 + 5, s6.2 ++ ["Regular app usage"])
    else s6
  let s8 : ℚ × List String :=
    if mtn_data.location_consistency > 90 then
      (s7.1 + 7, s7.2 ++ ["Consistent location patterns"])
    else s7
  let s9 : ℚ × List String :=
    if mtn_data.failed_transactions_rate > 3 then
      (s8.1 - 5, s8.2 ++ ["Some failed transactions"])
    else s8
  let s10 : ℚ × List String :=
    if mtn_data.disputes_6months > 0 then
      (s9.1 - 10, s9.2 ++ ["Recent disputes"])
    else s9
  (max (min s10.1 100) 0, s10.2)

/-! ### Helper lemmas -/

lemma round_mono_q {a b : ℚ} (h : a ≤ b) : round a ≤ round b := by
  rw [round_eq, round_eq]
  exact Int.floor_mono (by linarith)

lemma round1_mono {a b : ℚ} (h : a ≤ b) : round1 a ≤ round1 b := by
  unfold round1
  have h1 := round_mono_q (by linarith : 10 * a ≤ 10 * b)
  have h2 : ((round (10 * a) : ℤ) : ℚ) ≤ ((round (10 * b) : ℤ) : ℚ) := by
    exact_mod_cast h1
  linarith

lemma round1_nonneg {a : ℚ} (h : 0 ≤ a) : 0 ≤ round1 a := by
  unfold round1
  have h1 : round (0 : ℚ) ≤ round (10 * a) := round_mono_q (by linarith)
  rw [round_zero] at h1
  have h2 : (0 : ℚ) ≤ ((round (10 * a) : ℤ) : ℚ) := by exact_mod_cast h1
  linarith

lemma round1_le_100 {a : ℚ} (h : a ≤ 100) : round1 a ≤ 100 := by
  unfold round1
  have h0 : round ((1000 : ℚ)) = 1000 := by norm_num [round_eq]
  have h1 : round (10 * a) ≤ round ((1000 : ℚ)) := round_mono_q (by linarith)
  rw [h0] at h1
  have h2 : ((round (10 * a) : ℤ) : ℚ) ≤ 1000 := by exact_mod_cast h1
  linarith

lemma round_sub_round_le {A B : ℚ} (h : A - B ≤ 50) :
    (round A : ℚ) - round B ≤ 50 := by
  have h1 : (round A : ℚ) ≤ A + 1 / 2 := by
    rw [round_eq]
    exact_mod_cast Int.floor_le (A + 1 / 2)
  have h2 : B + 1 / 2 - 1 < ((round B : ℤ) : ℚ) := by
    rw [round_eq]
    exact_mod_cast Int.sub_one_lt_floor (B + 1 / 2)
  have h3 : (round A : ℚ) - round B < 51 := by linarith
  have h4 : round A - round B < (51 : ℤ) := by exact_mod_cast h3
  have h5 : round A - round B ≤ (50 : ℤ) := by omega
  exact_mod_cast h5

lemma clamp_mono {a b : ℚ} (h : a ≤ b) :
    max (min a 100) 0 ≤ max (min b 100) 0 :=
  max_le_max (min_le_min h le_rfl) le_rfl

lemma clamp_sub_le (a b : ℚ) :
    max (min a 100) 0 - max (min b 100) 0 ≤ max (a - b) 0 := by
  simp only [min_def, max_def]
  split_ifs <;> linarith

lemma max_min_comm_100 (x : ℚ) : max (min x 100) 0 = min (max x 0) 100 := by
  simp only [min_def, max_def]
  split_ifs <;> linarith

/-- The deduction amount of `calculate_risk_deduction`, exposed. -/
lemma risk_deduction_fst (r : RiskIndicators) :
    (calculate_risk_deduction r).1 =
      min ((if r.failed_transaction_rate.getD 0 > 5 then (30 : ℚ)
            else if r.failed_transaction_rate.getD 0 > 2 then 15 else 0) +
           (if r.dispute_count_6months.getD 0 > 2 then (25 : ℚ)
            else if r.dispute_count_6months.getD 0 > 0 then 10 else 0) +
           (if (r.suspicious_activity_flags.getD []).length > 0
            then ((r.suspicious_activity_flags.getD []).length : ℚ) * 15
            else 0)) 100 := rfl

lemma risk_deduction_nonneg (r : RiskIndicators) :
    0 ≤ (calculate_risk_deduction r).1 := by
  rw [risk_deduction_fst]
  refine le_min ?_ (by norm_num)
  have h0 : (0 : ℚ) ≤ ((r.suspicious_activity_flags.getD []).length : ℚ) := by
    positivity
  split_ifs <;> linarith

lemma risk_deduction_le_100 (r : RiskIndicators) :
    (calculate_risk_deduction r).1 ≤ 100 := by
  rw [risk_deduction_fst]
  exact min_le_right _ _

lemma risk_deduction_mono {r1 r2 : RiskIndicators}
    (hf : r1.failed_transaction_rate.getD 0 ≤ r2.failed_transaction_rate.getD 0)
    (hd : r1.dispute_count_6months.getD 0 ≤ r2.dispute_count_6months.getD 0)
    (hl : (r1.suspicious_activity_flags.getD []).length ≤
          (r2.suspicious_activity_flags.getD []).length) :
    (calculate_risk_deduction r1).1 ≤ (calculate_risk_deduction r2).1 := by
  rw [risk_deduction_fst, risk_deduction_fst]
  have hcast : ((r1.suspicious_activity_flags.getD []).length : ℚ) ≤
      ((r2.suspicious_activity_flags.getD []).length : ℚ) := by exact_mod_cast hl
  have h1 : (0 : ℚ) ≤ ((r1.suspicious_activity_flags.getD []).length : ℚ) := by
    positivity
  have h2 : (0 : ℚ) ≤ ((r2.suspicious_activity_flags.getD []).length : ℚ) := by
    positivity
  have m1 : (if r1.failed_transaction_rate.getD 0 > 5 then (30 : ℚ)
      else if r1.failed_transaction_rate.getD 0 > 2 then 15 else 0) ≤
      (if r2.failed_transaction_rate.getD 0 > 5 then (30 : ℚ)
      else if r2.failed_transaction_rate.getD 0 > 2 then 15 else 0) := by
    split_ifs <;> linarith
  have m2 : (if r1.dispute_count_6months.getD 0 > 2 then (25 : ℚ)
      else if r1.dispute_count_6months.getD 0 > 0 then 10 else 0) ≤
      (if r2.dispute_count_6months.getD 0 > 2 then (25 : ℚ)
      else if r2.dispute_count_6months.getD 0 > 0 then 10 else 0) := by
    split_ifs <;> linarith
  have m3 : (if (r1.suspicious_activity_flags.getD []).length > 0
      then ((r1.suspicious_activity_flags.getD []).length : ℚ) * 15 else 0) ≤
      (if (r2.suspicious_activity_flags.getD []).length > 0
      then ((r2.suspicious_activity_flags.getD []).length : ℚ) * 15 else 0) := by
    split_ifs <;> linarith
  exact min_le_min (add_le_add (add_le_add m1 m2) m3) le_rfl

/-- The final score, unfolded to the aggregation formula of the source:
weighted positive components, risk deduction scaled by its weight,
clamped with `max(min(x, 100.0), 0.0)` and rounded to one decimal. -/
lemma final_score_def (today : ℤ) (d : MtnData) :
    (calculate_trust_score today d).final_score =
      round1 (max (min (
        (calculate_account_health_score today (d.account_info.getD AccountInfo.empty)).1 *
            WEIGHTS.account_health +
        (calculate_transaction_patterns_score (d.payment_patterns.getD PaymentPatterns.empty)).1 *
            WEIGHTS.transaction_patterns +
        (calculate_financial_behavior_score (d.balance_info.getD BalanceInfo.empty)
            (d.payment_patterns.getD PaymentPatterns.empty)).1 *
            WEIGHTS.financial_behavior +
        (calculate_engagement_score (d.behavioral_data.getD BehavioralData.empty)).1 *
            WEIGHTS.engagement_loyalty -
        (calculate_risk_deduction (d.risk_indicators.getD RiskIndicators.empty)).1 *
            WEIGHTS.risk_factors) 100) 0) := rfl

/-! ### Claim theorems -/

/-- Claim C1: for every input dataset, the final trust score equals
`accountScore*0.25 + transactionScore*0.30 + financialScore*0.25 +
engagementScore*0.15 - riskDeduction*0.05`, clamped to `[0, 100]` and rounded
to one decimal place, where the five sub-scores are the outputs of the five
component calculators on the corresponding sub-records. -/
theorem C1_final_score_formula (today : ℤ) (d : MtnData) :
    (calculate_trust_score today d).final_score =
      round1 (min (max (
        (calculate_account_health_score today (d.account_info.getD AccountInfo.empty)).1 * 0.25 +
        (calculate_transaction_patterns_score (d.payment_patterns.getD PaymentPatterns.empty)).1 * 0.30 +
        (calculate_financial_behavior_score (d.balance_info.getD BalanceInfo.empty)
            (d.payment_patterns.getD PaymentPatterns.empty)).1 * 0.25 +
        (calculate_engagement_score (d.behavioral_data.getD BehavioralData.empty)).1 * 0.15 -
        (calculate_risk_deduction (d.risk_indicators.getD RiskIndicators.empty)).1 * 0.05) 0) 100) ∧
    0 ≤ (calculate_trust_score today d).final_score ∧
    (calculate_trust_score today d).final_score ≤ 100 ∧
    ∃ n : ℤ, (calculate_trust_score today d).final_score = (n : ℚ) / 10 := by
  refine ⟨?_, ?_, ?_, ?_⟩
  · rw [final_score_def, max_min_comm_100]
    rfl
  · rw [final_score_def]
    exact round1_nonneg (le_max_right _ _)
  · rw [final_score_def]
    exact round1_le_100 (max_le (le_trans (min_le_right _ _) le_rfl) (by norm_num))
  · rw [final_score_def]
    exact ⟨round (10 * _), rfl⟩

/-- Claim C2 (code evaluation): the five entries of the `WEIGHTS` table sum to
exactly 1. The startup assertion the claim describes does not exist in the
source: `WEIGHTS` is a plain class attribute and no validation runs at
initialization, so a malformed table would not prevent the engine from
starting. -/
theorem C2_weights_sum_is_one : weightTableSum WEIGHTS = 1 := by
  norm_num [weightTableSum, WEIGHTS]

/-- The literal dataset of example scenario 1 of the spec: KYC verified,
active account, 850 days of age (date day 0 read at day 850), balances
4200.50 / 3100.00, 42 monthly transactions at 98.5% success, 26 app-usage
days, 94.2% location consistency, 1.5% failure rate, 0 disputes, all other
fields absent. -/
def scenario1 : MtnData :=
  ⟨some ⟨some "ACTIVE", some "VERIFIED", some (DateParse.ok 0), none⟩,
   some ⟨some 4200.50, some 3100.00⟩,
   some ⟨some 42, some 98.5, [], none, none, none⟩,
   some ⟨some 26, none, some 94.2⟩,
   some ⟨some 1.5, some 0, none⟩⟩

/-- Claim C3 counterexample: on the literal scenario-1 dataset the risk
deduction is indeed 0, but the weighted engine's final aggregate score is
68.7, not the claimed clamp ceiling 100.0. -/
theorem C3_counterexample :
    (calculate_trust_score 850 scenario1).risk_deduction = 0 ∧
    (calculate_trust_score 850 scenario1).final_score = 68.7 ∧
    (68.7 : ℚ) ≠ 100 := by
  refine ⟨?_, ?_, by norm_num⟩ <;>
    norm_num +decide [calculate_trust_score, calculate_account_health_score,
      calculate_transaction_patterns_score, calculate_financial_behavior_score,
      calculate_engagement_score, calculate_risk_deduction, WEIGHTS, scenario1,
      round1, round_eq, min_def, max_def, AccountInfo.empty, BalanceInfo.empty,
      PaymentPatterns.empty, BehavioralData.empty, RiskIndicators.empty]

/-- Claim C3 as amended: on the scenario-1 dataset the risk deduction is 0 and
the weighted engine (`TrustScoreEngine.calculate_trust_score`) returns 68.7;
the clamp ceiling 100.0 is produced by the simplified endpoint engine
(`calculate_trust_score_engine` of `trustscore_simple`) on the corresponding
simulated dataset, which is what the spec's scenario describes. -/
theorem C3_amended_weighted_vs_simple :
    (calculate_trust_score 850 scenario1).risk_deduction = 0 ∧
    (calculate_trust_score 850 scenario1).final_score = 68.7 ∧
    (calculate_trust_score_engine (simulate_mtn_data_analysis "27830000000")).1 = 100 := by
  refine ⟨?_, ?_, ?_⟩ <;>
    norm_num +decide [calculate_trust_score, calculate_account_health_score,
      calculate_transaction_patterns_score, calculate_financial_behavior_score,
      calculate_engagement_score, calculate_risk_deduction, WEIGHTS, scenario1,
      round1, round_eq, min_def, max_def, AccountInfo.empty, BalanceInfo.empty,
      PaymentPatterns.empty, BehavioralData.empty, RiskIndicators.empty,
      calculate_trust_score_engine, simulate_mtn_data_analysis]

/-- An `account_info` sub-record whose nested identity verification score is
present but negative. -/
def negIdentityAccount : AccountInfo := ⟨none, none, none, some (-1000)⟩

/-- Claim C5 (code bug evidence): component scores are only clamped from
above (`min(score, 100.0)`), never from below, and raw inputs are not
clamped. With `identity_verification_score = -1000` the account-health score
is `-200 < 0`; with `location_consistency = -1000` the engagement score is
`-285 < 0` — contradicting the claimed `[0, 100]` invariant and the
docstrings of the calculators. -/
theorem C5_negative_component_scores :
    (calculate_account_health_score 0 negIdentityAccount).1 = -200 ∧
    (calculate_account_health_score 0 negIdentityAccount).1 < 0 ∧
    (calculate_engagement_score ⟨none, none, some (-1000)⟩).1 = -285 ∧
    (calculate_engagement_score ⟨none, none, some (-1000)⟩).1 < 0 := by
  refine ⟨?_, ?_, ?_, ?_⟩ <;>
    norm_num +decide [calculate_account_health_score, calculate_engagement_score,
      negIdentityAccount, min_def, max_def]

/-! ### Claim C4: bounded risk influence, monotonicity -/

lemma round1_sub_round1_le {a b : ℚ} (h : a - b ≤ 5) :
    round1 a - round1 b ≤ 5 := by
  unfold round1
  have h1 : 10 * a - 10 * b ≤ 50 := by linarith
  have h2 := round_sub_round_le h1
  linarith

/-- The final score of `calculate_trust_score` on an explicitly decomposed
dataset, with the weights unfolded to their literal values. -/
lemma final_score_eq2 (today : ℤ) (a : Option AccountInfo)
    (b : Option BalanceInfo) (p : Option PaymentPatterns)
    (be : Option BehavioralData) (r : Option RiskIndicators) :
    (calculate_trust_score today ⟨a, b, p, be, r⟩).final_score =
      round1 (max (min (
        (calculate_account_health_score today (a.getD AccountInfo.empty)).1 * 0.25 +
        (calculate_transaction_patterns_score (p.getD PaymentPatterns.empty)).1 * 0.30 +
        (calculate_financial_behavior_score (b.getD BalanceInfo.empty)
            (p.getD PaymentPatterns.empty)).1 * 0.25 +
        (calculate_engagement_score (be.getD BehavioralData.empty)).1 * 0.15 -
        (calculate_risk_deduction (r.getD RiskIndicators.empty)).1 * 0.05) 100) 0) := rfl

lemma final_diff_one_side (x : ℚ) {d1 d2 : ℚ} (h1 : 0 ≤ d1) (h4 : d2 ≤ 100) :
    round1 (max (min (x - d1 * 0.05) 100) 0) -
      round1 (max (min (x - d2 * 0.05) 100) 0) ≤ 5 := by
  apply round1_sub_round1_le
  have hc := clamp_sub_le (x - d1 * 0.05) (x - d2 * 0.05)
  have hub : (x - d1 * 0.05) - (x - d2 * 0.05) ≤ 5 := by linarith
  have hm : max ((x - d1 * 0.05) - (x - d2 * 0.05)) 0 ≤ 5 := max_le hub (by norm_num)
  linarith

lemma final_diff_bound (x : ℚ) {d1 d2 : ℚ} (h1 : 0 ≤ d1) (h2 : d1 ≤ 100)
    (h3 : 0 ≤ d2) (h4 : d2 ≤ 100) :
    |round1 (max (min (x - d1 * 0.05) 100) 0) -
      round1 (max (min (x - d2 * 0.05) 100) 0)| ≤ 5 := by
  rw [abs_le]
  constructor
  · have := final_diff_one_side x h3 h2
    linarith
  · exact final_diff_one_side x h1 h4

/-- A `risk_indicators` record with failure rate 1% and no other signals. -/
def riskA : RiskIndicators := ⟨some 1, none, none⟩

/-- A `risk_indicators` record with failure rate 1.5% and no other signals. -/
def riskB : RiskIndicators := ⟨some 1.5, none, none⟩

/-- Claim C4 counterexample: strict monotonicity fails. Raising the failed
transaction rate from 1% to 1.5% (both under the first penalty threshold of
2%) leaves the final score unchanged at 24.8 on the otherwise-empty dataset,
so an increase of a risk signal does not strictly lower the final score. -/
theorem C4_counterexample :
    (1 : ℚ) < 1.5 ∧
    (calculate_trust_score 0 ⟨none, none, none, none, some riskA⟩).final_score = 24.8 ∧
    (calculate_trust_score 0 ⟨none, none, none, none, some riskB⟩).final_score = 24.8 := by
  refine ⟨by norm_num, ?_, ?_⟩ <;>
    norm_num +decide [calculate_trust_score, calculate_account_health_score,
      calculate_transaction_patterns_score, calculate_financial_behavior_score,
      calculate_engagement_score, calculate_risk_deduction, WEIGHTS,
      riskA, riskB, round1, round_eq, min_def, max_def, AccountInfo.empty,
      BalanceInfo.empty, PaymentPatterns.empty, BehavioralData.empty,
      RiskIndicators.empty]

/-- Claim C4 as amended: (1) changing only the `risk_indicators` sub-record
changes the final score by at most 5 points; (2) the final score is weakly
(not strictly) monotonically decreasing in the risk signals: raising the
failed transaction rate, the dispute count, or the number of
suspicious-activity flags never raises the final score. -/
theorem C4_risk_bounded_and_monotone :
    (∀ (today : ℤ) (a : Option AccountInfo) (b : Option BalanceInfo)
        (p : Option PaymentPatterns) (be : Option BehavioralData)
        (r1 r2 : Option RiskIndicators),
      |(calculate_trust_score today ⟨a, b, p, be, r1⟩).final_score -
        (calculate_trust_score today ⟨a, b, p, be, r2⟩).final_score| ≤ 5) ∧
    (∀ (today : ℤ) (a : Option AccountInfo) (b : Option BalanceInfo)
        (p : Option PaymentPatterns) (be : Option BehavioralData)
        (r1 r2 : RiskIndicators),
      r1.failed_transaction_rate.getD 0 ≤ r2.failed_transaction_rate.getD 0 →
      r1.dispute_count_6months.getD 0 ≤ r2.dispute_count_6months.getD 0 →
      (r1.suspicious_activity_flags.getD []).length ≤
        (r2.suspicious_activity_flags.getD []).length →
      (calculate_trust_score today ⟨a, b, p, be, some r2⟩).final_score ≤
        (calculate_trust_score today ⟨a, b, p, be, some r1⟩).final_score) := by
  constructor
  · intro today a b p be r1 r2
    rw [final_score_eq2, final_score_eq2]
    exact final_diff_bound _ (risk_deduction_nonneg _) (risk_deduction_le_100 _)
      (risk_deduction_nonneg _) (risk_deduction_le_100 _)
  · intro today a b p be r1 r2 hf hd hl
    rw [final_score_eq2, final_score_eq2]
    apply round1_mono
    apply clamp_mono
    have hmono : (calculate_risk_deduction ((some r1).getD RiskIndicators.empty)).1 ≤
        (calculate_risk_deduction ((some r2).getD RiskIndicators.empty)).1 := by
      rw [Option.getD_some, Option.getD_some]
      exact risk_deduction_mono hf hd hl
    have := mul_le_mul_of_nonneg_right hmono (by norm_num : (0 : ℚ) ≤ 0.05)
    linarith

/-- Claim C4 witness: the two parts of `C4_risk_bounded_and_monotone`
instantiated at concrete datasets. -/
theorem C4_witness :
    |(calculate_trust_score 0 ⟨none, none, none, none, some riskA⟩).final_score -
      (calculate_trust_score 0 ⟨none, none, none, none, some riskB⟩).final_score| ≤ 5 ∧
    (calculate_trust_score 0 ⟨none, none, none, none, some ⟨some 3, some 1, some ["f"]⟩⟩).final_score ≤
      (calculate_trust_score 0 ⟨none, none, none, none, some ⟨some 1, some 0, some []⟩⟩).final_score :=
  ⟨C4_risk_bounded_and_monotone.1 0 none none none none (some riskA) (some riskB),
   C4_risk_bounded_and_monotone.2 0 none none none none ⟨some 1, some 0, some []⟩
     ⟨some 3, some 1, some ["f"]⟩ (by norm_num) (by norm_num) (by norm_num)⟩

/-! ### Claims C6-C8: offer generation -/

lemma round2_mono {a b : ℚ} (h : a ≤ b) : round2 a ≤ round2 b := by
  unfold round2
  have h1 := round_mono_q (by linarith : 100 * a ≤ 100 * b)
  have h2 : ((round (100 * a) : ℤ) : ℚ) ≤ ((round (100 * b) : ℤ) : ℚ) := by
    exact_mod_cast h1
  linarith

lemma round2_500 : round2 500 = 500 := by norm_num [round2, round_eq]

/-- Claim C6 counterexample: at score 39.9 the engine does return a rejection
dict, but its reason is the literal string "TrustScore below minimum
threshold for loan approval", not the claimed "score below minimum
threshold". -/
theorem C6_counterexample :
    generate_loan_offer 39.9 BalanceInfo.empty 0 =
      LoanOfferResult.rejected "TrustScore below minimum threshold for loan approval" 40 ∧
    "TrustScore below minimum threshold for loan approval" ≠
      "score below minimum threshold" := by
  constructor
  · have h : tierOf (39.9 : ℚ) = none := by norm_num [tierOf]
    unfold generate_loan_offer
    rw [h]
  · decide

/-- Claim C6 as amended: for every trust score strictly below 40 (and any
balance record and clock reading) the generator returns the unapproved
rejection dict with reason "TrustScore below minimum threshold for loan
approval" and `minimum_score_required` 40, carrying zero loan options. -/
theorem C6_rejected_below_40 (s : ℚ) (b : BalanceInfo) (t : ℤ) (h : s < 40) :
    generate_loan_offer s b t =
      LoanOfferResult.rejected "TrustScore below minimum threshold for loan approval" 40 ∧
    (generate_loan_offer s b t).optionsList = [] ∧
    (generate_loan_offer s b t).approvedFlag = false := by
  have htier : tierOf s = none := by
    unfold tierOf
    split_ifs <;> first | rfl | linarith
  have hmain : generate_loan_offer s b t =
      LoanOfferResult.rejected "TrustScore below minimum threshold for loan approval" 40 := by
    unfold generate_loan_offer
    rw [htier]
  exact ⟨hmain, by rw [hmain]; rfl, by rw [hmain]; rfl⟩

/-- Claim C6 witness: `C6_rejected_below_40` applied at score 39.9. -/
theorem C6_witness :
    (39.9 : ℚ) < 40 ∧
    generate_loan_offer 39.9 BalanceInfo.empty 5 =
      LoanOfferResult.rejected "TrustScore below minimum threshold for loan approval" 40 :=
  ⟨by norm_num, (C6_rejected_below_40 39.9 BalanceInfo.empty 5 (by norm_num)).1⟩

lemma affordCap_ge_500 (maxA : ℚ) (b : BalanceInfo) : 500 ≤ affordCap maxA b := by
  simp only [affordCap]
  split_ifs <;> linarith

lemma affordCap_le_max (maxA : ℚ) (b : BalanceInfo) (h : 500 ≤ maxA) :
    affordCap maxA b ≤ maxA := by
  simp only [affordCap]
  have hmin := min_le_left maxA
    (min (b.average_monthly_balance.getD 0 * 2) (b.current_balance.getD 0 * 5))
  split_ifs <;> linarith

lemma affordCap_fallback (maxA : ℚ) (b : BalanceInfo) (h : 500 ≤ maxA)
    (hz : min (b.average_monthly_balance.getD 0 * 2) (b.current_balance.getD 0 * 5) ≤ 0) :
    affordCap maxA b = maxA := by
  simp only [affordCap]
  split_ifs <;> linarith

lemma affordCap_pos_limit (maxA : ℚ) (b : BalanceInfo)
    (hp : 0 < min (b.average_monthly_balance.getD 0 * 2) (b.current_balance.getD 0 * 5)) :
    affordCap maxA b =
      max (min maxA (min (b.average_monthly_balance.getD 0 * 2)
        (b.current_balance.getD 0 * 5))) 500 := by
  simp only [affordCap]
  rw [if_pos hp]
  rcases lt_or_le (min maxA (min (b.average_monthly_balance.getD 0 * 2)
      (b.current_balance.getD 0 * 5))) 500 with hlt | hle
  · rw [if_pos hlt, max_eq_right hlt.le]
  · rw [if_neg (not_lt.mpr hle), max_eq_left hle]

/-- `generate_loan_offer` on an approved tier, unfolded. -/
lemma generate_approved {s : ℚ} (b : BalanceInfo) (t : ℤ) {tier : String}
    {maxA rate : ℚ} {term : ℕ} (h : tierOf s = some (tier, maxA, rate, term)) :
    generate_loan_offer s b t = LoanOfferResult.approved s tier
      (mkLoanOptions (affordCap maxA b) rate (max (affordCap maxA b * 0.02) 25) term)
      (t + 24 * 3600) (t + 7 * 86400) := by
  unfold generate_loan_offer
  rw [h]

lemma tierOf_bounds {s : ℚ} {tier : String} {maxA rate : ℚ} {term : ℕ}
    (h : tierOf s = some (tier, maxA, rate, term)) : 2000 ≤ maxA ∧ 40 ≤ s := by
  unfold tierOf at h
  split_ifs at h with h1 h2 h3 h4 <;>
    simp only [Option.some.injEq, Prod.mk.injEq] at h
  · obtain ⟨-, hm, -⟩ := h
    constructor <;> [linarith [hm.symm.le, hm.le]; linarith]
  · obtain ⟨-, hm, -⟩ := h
    constructor <;> [linarith [hm.symm.le, hm.le]; linarith]
  · obtain ⟨-, hm, -⟩ := h
    constructor <;> [linarith [hm.symm.le, hm.le]; linarith]
  · obtain ⟨-, hm, -⟩ := h
    constructor <;> [linarith [hm.symm.le, hm.le]; linarith]

lemma mkLoanOptions_map_amount (cap rate fee : ℚ) (term : ℕ) :
    (mkLoanOptions cap rate fee term).map (fun o => o.amount) =
      loanFractions.filterMap (fun p =>
        if cap * p ≥ 500 then some (round2 (cap * p)) else none) := by
  simp only [mkLoanOptions, List.map_filterMap]
  congr 1
  funext p
  split <;> rfl

lemma mkLoanOptions_last_amount (cap rate fee : ℚ) (term : ℕ)
    (h : (500 : ℚ) ≤ cap) :
    ((mkLoanOptions cap rate fee term).map (fun o => o.amount)).getLast? =
      some (round2 cap) := by
  rw [mkLoanOptions_map_amount]
  have h4 : cap * 1 ≥ 500 := by rw [mul_one]; exact h
  rcases Classical.em (cap * 0.25 ≥ 500) with h1 | h1 <;>
    rcases Classical.em (cap * 0.5 ≥ 500) with h2 | h2 <;>
      rcases Classical.em (cap * 0.75 ≥ 500) with h3 | h3 <;>
        simp [loanFractions, List.filterMap_cons, h1, h2, h3, h4, h, mul_one]

lemma mkLoanOptions_chain (cap rate fee : ℚ) (term : ℕ) (h0 : 0 ≤ cap) :
    List.Chain' (fun x y => x ≤ y)
      ((mkLoanOptions cap rate fee term).map (fun o => o.amount)) := by
  rw [mkLoanOptions_map_amount]
  have q12 : round2 (cap * 0.25) ≤ round2 (cap * 0.5) := round2_mono (by linarith)
  have q23 : round2 (cap * 0.5) ≤ round2 (cap * 0.75) := round2_mono (by linarith)
  have q34 : round2 (cap * 0.75) ≤ round2 cap := round2_mono (by linarith)
  have q13 : round2 (cap * 0.25) ≤ round2 (cap * 0.75) := le_trans q12 q23
  have q24 : round2 (cap * 0.5) ≤ round2 cap := le_trans q23 q34
  have q14 : round2 (cap * 0.25) ≤ round2 cap := le_trans q12 q24
  rcases Classical.em (cap * 0.25 ≥ 500) with h1 | h1 <;>
    rcases Classical.em (cap * 0.5 ≥ 500) with h2 | h2 <;>
      rcases Classical.em (cap * 0.75 ≥ 500) with h3 | h3 <;>
        rcases Classical.em ((500 : ℚ) ≤ cap) with h4 | h4 <;>
          simp [loanFractions, List.filterMap_cons, h1, h2, h3, h4,
            List.chain'_cons, q12, q23, q34, q13, q24, q14]

lemma mem_mkLoanOptions {cap rate fee : ℚ} {term : ℕ} {o : LoanOption}
    (h : o ∈ mkLoanOptions cap rate fee term) :
    o.processing_fee = round2 fee ∧ 500 ≤ o.amount := by
  simp only [mkLoanOptions, List.mem_filterMap] at h
  obtain ⟨p, hp, hf⟩ := h
  by_cases hc : cap * p ≥ 500
  · rw [if_pos hc] at hf
    obtain rfl := Option.some_injective _ hf
    refine ⟨rfl, ?_⟩
    have := round2_mono hc
    rw [round2_500] at this
    exact this
  · rw [if_neg hc] at hf
    cases hf

/-- Balance record with `current_balance = 0` and
`average_monthly_balance = 1000`. -/
def balCur0 : BalanceInfo := ⟨some 0, some 1000⟩

/-- Balance record of spec scenario 2: current 4200.50, average 3100. -/
def bal1 : BalanceInfo := ⟨some 4200.50, some 3100.00⟩

/-- Modelled from the claim/spec wording, for comparison with the source:
cap = `min(2*avg, 5*cur)`, falling back to the tier max exactly when both
inputs are zero, bounded above by the tier max and below by 500. -/
def specAffordCap (max_amount avg cur : ℚ) : ℚ :=
  if avg = 0 ∧ cur = 0 then max_amount
  else max (min (min (avg * 2) (cur * 5)) max_amount) 500

/-- Claim C7 counterexample: with `average_monthly_balance = 1000` and
`current_balance = 0` (not both zero), the code's balance-based limit
`min(2000, 0) = 0` is not positive, so the code falls back to the tier
maximum 15000 and offers principals up to 15000 — while the claim's rule
(fallback exactly when both inputs are zero) would cap at 500. -/
theorem C7_counterexample :
    affordCap 15000 balCur0 = 15000 ∧
    specAffordCap 15000 1000 0 = 500 ∧
    (15000 : ℚ) ≠ 500 ∧
    (generate_loan_offer 90 balCur0 0).optionsList.map (fun o => o.amount) =
      [3750, 7500, 11250, 15000] := by
  have hcap : affordCap 15000 balCur0 = 15000 := by
    norm_num [affordCap, balCur0, min_def, max_def]
  have htier : tierOf (90 : ℚ) = some ("EXCELLENT", 15000, 2.5, 180) := by
    norm_num [tierOf]
  refine ⟨hcap, ?_, by norm_num, ?_⟩
  · norm_num [specAffordCap, min_def, max_def]
  · rw [generate_approved balCur0 0 htier]
    simp only [LoanOfferResult.optionsList]
    rw [mkLoanOptions_map_amount, hcap]
    norm_num [loanFractions, List.filterMap_cons, round2, round_eq]

/-- Claim C7 as amended: for every approved tier the affordability cap lies
in `[500, tierMax]`; it equals the tier max whenever the balance-based limit
`min(2*avg, 5*cur)` is not positive (in particular when both inputs are zero
or absent — but also when merely one of them is zero or negative); when the
limit is positive the cap is `max(min(tierMax, limit), 500)`; and the top
surviving offer principal is exactly the (two-decimal-rounded) cap. -/
theorem C7_affordability_cap (s : ℚ) (b : BalanceInfo) (t : ℤ) (tier : String)
    (maxA rate : ℚ) (term : ℕ) (h : tierOf s = some (tier, maxA, rate, term)) :
    500 ≤ affordCap maxA b ∧
    affordCap maxA b ≤ maxA ∧
    (b.average_monthly_balance.getD 0 = 0 ∧ b.current_balance.getD 0 = 0 →
      affordCap maxA b = maxA) ∧
    (min (b.average_monthly_balance.getD 0 * 2) (b.current_balance.getD 0 * 5) ≤ 0 →
      affordCap maxA b = maxA) ∧
    (0 < min (b.average_monthly_balance.getD 0 * 2) (b.current_balance.getD 0 * 5) →
      affordCap maxA b =
        max (min maxA (min (b.average_monthly_balance.getD 0 * 2)
          (b.current_balance.getD 0 * 5))) 500) ∧
    ((generate_loan_offer s b t).optionsList.map (fun o => o.amount)).getLast? =
      some (round2 (affordCap maxA b)) := by
  obtain ⟨hmax, -⟩ := tierOf_bounds h
  have h500 : (500 : ℚ) ≤ maxA := by linarith
  refine ⟨affordCap_ge_500 maxA b, affordCap_le_max maxA b h500, ?_, ?_,
    affordCap_pos_limit maxA b, ?_⟩
  · rintro ⟨h1, h2⟩
    refine affordCap_fallback maxA b h500 ?_
    rw [h1, h2]
    norm_num
  · exact fun hz => affordCap_fallback maxA b h500 hz
  · rw [generate_approved b t h]
    simp only [LoanOfferResult.optionsList]
    exact mkLoanOptions_last_amount _ _ _ _ (affordCap_ge_500 maxA b)

/-- Claim C7 witness: `C7_affordability_cap` at score 90 with the scenario-2
balances (and the fallback case checked through the zero-balance record). -/
theorem C7_witness :
    500 ≤ affordCap 15000 bal1 ∧ affordCap 15000 bal1 ≤ 15000 ∧
    affordCap 15000 BalanceInfo.empty = 15000 :=
  ⟨(C7_affordability_cap 90 bal1 0 "EXCELLENT" 15000 2.5 180
      (by norm_num [tierOf])).1,
   (C7_affordability_cap 90 bal1 0 "EXCELLENT" 15000 2.5 180
      (by norm_num [tierOf])).2.1,
   (C7_affordability_cap 90 BalanceInfo.empty 0 "EXCELLENT" 15000 2.5 180
      (by norm_num [tierOf])).2.2.1 ⟨rfl, rfl⟩⟩

/-- Claim C8: in every approved bundle the processing fee stored on each
option equals the two-decimal rounding of `max(cap*0.02, 25)`, computed from
the single bundle-level cap and hence identical across all options; the
amounts are exactly the fractions 0.25, 0.5, 0.75, 1.0 of the cap in that
ascending order with sub-500 principals omitted (not zero-padded); surviving
amounts are non-decreasing and each is at least 500. -/
theorem C8_fee_and_fraction_ladder (s : ℚ) (b : BalanceInfo) (t : ℤ)
    (tier : String) (maxA rate : ℚ) (term : ℕ)
    (h : tierOf s = some (tier, maxA, rate, term)) :
    (∀ o ∈ (generate_loan_offer s b t).optionsList,
        o.processing_fee = round2 (max (affordCap maxA b * 0.02) 25)) ∧
    ((generate_loan_offer s b t).optionsList.map (fun o => o.amount) =
      loanFractions.filterMap (fun p =>
        if affordCap maxA b * p ≥ 500 then some (round2 (affordCap maxA b * p))
        else none)) ∧
    List.Chain' (fun x y => x ≤ y)
      ((generate_loan_offer s b t).optionsList.map (fun o => o.amount)) ∧
    (∀ o ∈ (generate_loan_offer s b t).optionsList, 500 ≤ o.amount) := by
  rw [generate_approved b t h]
  simp only [LoanOfferResult.optionsList]
  have hcap0 : (0 : ℚ) ≤ affordCap maxA b :=
    le_trans (by norm_num) (affordCap_ge_500 maxA b)
  refine ⟨?_, mkLoanOptions_map_amount _ _ _ _,
    mkLoanOptions_chain _ _ _ _ hcap0, ?_⟩
  · intro o ho
    exact (mem_mkLoanOptions ho).1
  · intro o ho
    exact (mem_mkLoanOptions ho).2

/-- Claim C8 witness: `C8_fee_and_fraction_ladder` at score 90 with the
scenario-2 balances. -/
theorem C8_witness :
    ((generate_loan_offer 90 bal1 0).optionsList.map (fun o => o.amount) =
      loanFractions.filterMap (fun p =>
        if affordCap 15000 bal1 * p ≥ 500 then some (round2 (affordCap 15000 bal1 * p))
        else none)) ∧
    List.Chain' (fun x y => x ≤ y)
      ((generate_loan_offer 90 bal1 0).optionsList.map (fun o => o.amount)) :=
  ⟨(C8_fee_and_fraction_ladder 90 bal1 0 "EXCELLENT" 15000 2.5 180
      (by norm_num [tierOf])).2.1,
   (C8_fee_and_fraction_ladder 90 bal1 0 "EXCELLENT" 15000 2.5 180
      (by norm_num [tierOf])).2.2.1⟩

/-! ### Claims C9-C10 -/

/-- The account age (in days) the engine derives from the wall clock:
`some (today - day)` when `customer_since` parses, `none` otherwise. -/
def accountAgeDays (today : ℤ) (a : AccountInfo) : Option ℤ :=
  match a.customer_since with
  | some (DateParse.ok day) => some (today - day)
  | _ => none

/-- The `offer_valid_until` stamp of a bundle, when approved. -/
def LoanOfferResult.validUntil : LoanOfferResult → Option ℤ
  | .rejected _ _ => none
  | .approved _ _ _ u _ => some u

lemma account_health_time_congr {t1 t2 : ℤ} (a : AccountInfo)
    (h : accountAgeDays t1 a = accountAgeDays t2 a) :
    calculate_account_health_score t1 a = calculate_account_health_score t2 a := by
  obtain ⟨st, ky, cs, idv⟩ := a
  rcases cs with - | dp
  · rfl
  · rcases dp with day | -
    · simp only [accountAgeDays, Option.some.injEq] at h
      simp only [calculate_account_health_score]
      rw [h]
    · rfl

/-- The dataset with every section absent. -/
def emptyData : MtnData := ⟨none, none, none, none, none⟩

/-- Claim C9 counterexample: the engine is not independent of the wall
clock. Reading the scenario-1 dataset at day 850 yields final score 68.7 but
at day 0 yields 63.7 (the account-age ladder moves), and the same offer
request issued one day apart produces different `offer_valid_until` stamps,
so two invocations on byte-identical datasets are not byte-identical. -/
theorem C9_counterexample :
    (calculate_trust_score 850 scenario1).final_score = 68.7 ∧
    (calculate_trust_score 0 scenario1).final_score = 63.7 ∧
    (68.7 : ℚ) ≠ 63.7 ∧
    (generate_loan_offer 90 bal1 0).validUntil = some 86400 ∧
    (generate_loan_offer 90 bal1 86400).validUntil = some 172800 ∧
    (86400 : ℤ) ≠ 172800 := by
  have htier : tierOf (90 : ℚ) = some ("EXCELLENT", 15000, 2.5, 180) := by
    norm_num [tierOf]
  refine ⟨?_, ?_, by norm_num, ?_, ?_, by norm_num⟩
  · norm_num +decide [calculate_trust_score, calculate_account_health_score,
      calculate_transaction_patterns_score, calculate_financial_behavior_score,
      calculate_engagement_score, calculate_risk_deduction, WEIGHTS, scenario1,
      round1, round_eq, min_def, max_def, AccountInfo.empty, BalanceInfo.empty,
      PaymentPatterns.empty, BehavioralData.empty, RiskIndicators.empty]
  · norm_num +decide [calculate_trust_score, calculate_account_health_score,
      calculate_transaction_patterns_score, calculate_financial_behavior_score,
      calculate_engagement_score, calculate_risk_deduction, WEIGHTS, scenario1,
      round1, round_eq, min_def, max_def, AccountInfo.empty, BalanceInfo.empty,
      PaymentPatterns.empty, BehavioralData.empty, RiskIndicators.empty]
  · rw [generate_approved bal1 0 htier]
    rfl
  · rw [generate_approved bal1 86400 htier]
    rfl

/-- Claim C9 as amended: the engine is deterministic given the clock
reading. (1) The trust score depends on the clock only through the derived
account age in days: two invocations whose derived ages agree produce
identical results. (2) The offer bundle's option list, approval flag and
credit tier are clock-independent; only the two validity timestamps vary
with the clock. -/
theorem C9_deterministic_given_clock :
    (∀ (d : MtnData) (t1 t2 : ℤ),
      accountAgeDays t1 (d.account_info.getD AccountInfo.empty) =
        accountAgeDays t2 (d.account_info.getD AccountInfo.empty) →
      calculate_trust_score t1 d = calculate_trust_score t2 d) ∧
    (∀ (s : ℚ) (b : BalanceInfo) (t1 t2 : ℤ),
      (generate_loan_offer s b t1).optionsList =
        (generate_loan_offer s b t2).optionsList ∧
      (generate_loan_offer s b t1).approvedFlag =
        (generate_loan_offer s b t2).approvedFlag ∧
      (generate_loan_offer s b t1).tierName =
        (generate_loan_offer s b t2).tierName) := by
  constructor
  · intro d t1 t2 h
    have hA := account_health_time_congr (d.account_info.getD AccountInfo.empty) h
    simp only [calculate_trust_score]
    rw [hA]
  · intro s b t1 t2
    cases h : tierOf s with
    | none =>
        unfold generate_loan_offer
        rw [h]
        exact ⟨rfl, rfl, rfl⟩
    | some tpl =>
        obtain ⟨tier, maxA, rate, term⟩ := tpl
        rw [generate_approved b t1 h, generate_approved b t2 h]
        exact ⟨rfl, rfl, rfl⟩

/-- Claim C9 witness: `C9_deterministic_given_clock` at concrete inputs — the
empty dataset scored at days 3 and 7 (no parsed date, so the derived ages
agree), and the offer options at two different clock readings. -/
theorem C9_witness :
    calculate_trust_score 3 emptyData = calculate_trust_score 7 emptyData ∧
    (generate_loan_offer 90 bal1 11).optionsList =
      (generate_loan_offer 90 bal1 22).optionsList :=
  ⟨C9_deterministic_given_clock.1 emptyData 3 7 rfl,
   (C9_deterministic_given_clock.2 90 bal1 11 22).1⟩

lemma account_health_ge_18 (today : ℤ) (st ky : Option String)
    (cs : Option DateParse) :
    18 ≤ (calculate_account_health_score today ⟨st, ky, cs, none⟩).1 := by
  rcases cs with - | dp
  · simp only [calculate_account_health_score, Option.getD_none]
    split_ifs <;> norm_num [min_def]
  · rcases dp with day | -
    · simp only [calculate_account_health_score, Option.getD_none]
      split_ifs <;> norm_num [min_def]
    · simp only [calculate_account_health_score, Option.getD_none]
      split_ifs <;> norm_num [min_def]

/-- Claim C10: when `account_info` carries no nested
`risk_indicators.identity_verification_score` entry, the account-health
calculator substitutes the default identity score 90 — the result is
literally the same as if the entry were present with value 90, the factor
trail records "Identity verification: 90%", and since the 90 default
contributes `(90/100)*20 = 18` points and the other contributions are
nonnegative, the account-health score is at least 18 (in particular on the
empty record). -/
theorem C10_default_identity (today : ℤ) (a : AccountInfo)
    (h : a.identity_verification_score = none) :
    calculate_account_health_score today a =
      calculate_account_health_score today
        ⟨a.account_status, a.kyc_status, a.customer_since, some 90⟩ ∧
    "Identity verification: 90%" ∈ (calculate_account_health_score today a).2 ∧
    18 ≤ (calculate_account_health_score today a).1 := by
  obtain ⟨st, ky, cs, idv⟩ := a
  have h' : idv = none := h
  subst h'
  refine ⟨rfl, ?_, account_health_ge_18 today st ky cs⟩
  have hmem : "Identity verification: 90%" =
      "Identity verification: " ++ toString ((none : Option ℚ).getD 90) ++ "%" := rfl
  rw [hmem]
  exact List.mem_append_right _ (List.mem_singleton.mpr rfl)

/-- Claim C10 witness: `C10_default_identity` on the empty account record,
whose identity entry is absent; the account-health score there is at least
18. -/
theorem C10_witness :
    AccountInfo.empty.identity_verification_score = none ∧
    18 ≤ (calculate_account_health_score 0 AccountInfo.empty).1 :=
  ⟨rfl, (C10_default_identity 0 AccountInfo.empty rfl).2.2⟩
